import Mathlib

/-!
Verification of the Roulette-Twitch bot (`src/main.rs`) against its
natural-language specification.

The development shallowly embeds the Rust code:

* the credential-refresh loop body of `Bot::start` (`src/main.rs:102-116`)
  becomes `Roulette.tick`, parameterised by an environment carrying the
  credential's remaining lifetime and the outcomes of the two outbound
  calls (`refresh_token`, `validate_token`);
* `Bot::handle_event` (`src/main.rs:125-170`) and `Bot::command`
  (`src/main.rs:172-227`) become `Roulette.handle_event` and
  `Roulette.command`, returning the list of observable actions
  (lock acquire/release, console output, outbound network calls) together
  with an outcome (`ok`, `err`, or `panic` for a Rust `unwrap` failure);
* `futures::future::try_join` at `src/main.rs:121` is embedded as a
  step-indexed round-robin execution `Roulette.tryJoinFrom` following the
  futures crate's documented semantics (poll both, finish at the first error);
* the `websocket` module (`ChatWebsocketClient`) is not part of the sources,
  so its welcome-then-subscribe behaviour is modelled from the spec
  (`Roulette.registerSubscriptions`).
-/

namespace Roulette

/-- Observable atomic actions performed by the bot's code paths.
`lockAcquire`/`lockRelease` are operations on the shared credential mutex
(`Arc<Mutex<UserToken>>`); `netRefresh`, `netValidate`, `netReply`, `netBan`
are the outbound network calls of `refresh_token`, `validate_token`,
`send_chat_message_reply` and `ban_user`; `printLine` is `println!` and
`logInfo` is `tracing::info!`. -/
inductive Action where
  | lockAcquire
  | lockRelease
  | printLine (line : String)
  | logInfo (line : String)
  | netRefresh
  | netValidate
  | netReply (broadcasterId userId messageId text : String)
  | netBan (targetUserId reason : String) (timeout : Option Nat)
      (broadcasterId moderatorId : String)
deriving DecidableEq, Repr

/-- An action is an outbound network call. -/
def Action.isNet : Action → Bool
  | .netRefresh => true
  | .netValidate => true
  | .netReply _ _ _ _ => true
  | .netBan _ _ _ _ _ => true
  | _ => false

/-- An action is a `ban_user` call. -/
def Action.isBan : Action → Bool
  | .netBan _ _ _ _ _ => true
  | _ => false

/-- `netCallWhileLocked tr d = true` iff the trace `tr`, started at lock
depth `d`, performs an outbound network call at a point where the credential
lock is held. -/
def netCallWhileLocked : List Action → Nat → Bool
  | [], _ => false
  | a :: rest, d =>
    match a with
    | .lockAcquire => netCallWhileLocked rest (d + 1)
    | .lockRelease => netCallWhileLocked rest (d - 1)
    | _ => (a.isNet && decide (0 < d)) || netCallWhileLocked rest d

/-- Outcome of the `refresh_token` call, `src/main.rs:108`: success, a
transient failure (e.g. network), or rejection of the refresh token itself. -/
inductive RefreshResult where
  | ok
  | err (e : String) (transient : Bool)
deriving DecidableEq, Repr

/-- Outcome of the `validate_token` call, `src/main.rs:113`. -/
inductive ValidateResult where
  | ok
  | err (e : String)
deriving DecidableEq, Repr

/-- Error with which one iteration of the refresh loop terminates:
either the wrapped refresh error (`"Couldn't refresh token"`,
`src/main.rs:110`) or the wrapped validation error
(`"couldn't validate token"`, `src/main.rs:115`). -/
inductive TickError where
  | refreshFailed (e : String) (transient : Bool)
  | validateFailed (e : String)
deriving DecidableEq, Repr

/-- Result of one iteration of the refresh loop body. -/
inductive TickResult where
  | ok
  | err (e : TickError)
deriving DecidableEq, Repr

/-- Environment of one iteration of the refresh loop: the credential's
remaining lifetime in whole seconds (`token.expires_in()`) and the outcomes
the authorization server would give to the two outbound calls. -/
structure TickEnv where
  expiresIn : Nat
  refreshResult : RefreshResult
  validateResult : ValidateResult
deriving DecidableEq, Repr

/-- One iteration of the credential-refresh loop body, `src/main.rs:104-115`:
take the lock, refresh iff `expires_in < 60s`, then validate; each call's
failure exits the iteration with `?` (the mutex guard is dropped on every
exit path, hence the trailing `lockRelease`). -/
def tick (env : TickEnv) : List Action × TickResult :=
  if env.expiresIn < 60 then
    match env.refreshResult with
    | .err e tr =>
        ([.lockAcquire, .netRefresh, .lockRelease], .err (.refreshFailed e tr))
    | .ok =>
        match env.validateResult with
        | .err e =>
            ([.lockAcquire, .netRefresh, .netValidate, .lockRelease],
              .err (.validateFailed e))
        | .ok =>
            ([.lockAcquire, .netRefresh, .netValidate, .lockRelease], .ok)
  else
    match env.validateResult with
    | .err e =>
        ([.lockAcquire, .netValidate, .lockRelease], .err (.validateFailed e))
    | .ok =>
        ([.lockAcquire, .netValidate, .lockRelease], .ok)

/-- The refresh loop (`loop \x7b ... \x7d`, `src/main.rs:103-116`) run over a
finite schedule of tick environments: iterations execute in order and the
first erroring iteration terminates the loop with that error (the `?`
operator); an exhausted schedule means the loop was still running. -/
def credLoop : List TickEnv → List Action × TickResult
  | [] => ([], .ok)
  | env :: rest =>
    match tick env with
    | (calls, .err e) => (calls, .err e)
    | (calls, .ok) =>
      let p := credLoop rest
      (calls ++ p.1, p.2)

/-- Claim C1: on every tick a refresh exchange is performed iff the remaining
lifetime is strictly below 60 seconds, and at most one refresh call is made
per tick: the number of refresh calls in a tick's trace is 1 when
`expiresIn < 60` (e.g. 45s) and 0 otherwise (e.g. 120s). -/
theorem tick_refresh_iff_expiring (env : TickEnv) :
    (tick env).1.count .netRefresh = if env.expiresIn < 60 then 1 else 0 := by
  rcases env with ⟨exp, rr, vr⟩
  by_cases h : exp < 60 <;>
    [rcases rr with _ | ⟨e, tr⟩; skip] <;>
    rcases vr with _ | e' <;>
    simp [tick, h, List.count_cons]

/-- Claim C2 counterexample: a transient refresh failure (here a network
failure at a tick with 45s of lifetime left) is NOT absorbed: the loop
terminates at that tick with the wrapped error — the next scheduled tick
(which would have succeeded) never runs, and the error surfaces out of the
loop. -/
theorem refresh_transient_not_absorbed :
    credLoop [⟨45, .err "network failure" true, .ok⟩, ⟨120, .ok, .ok⟩]
      = ([.lockAcquire, .netRefresh, .lockRelease],
          .err (.refreshFailed "network failure" true)) := rfl

/-- Claim C2, amended: any failing tick — a refresh failure, transient or
not, as well as a validation failure — terminates the credential loop at
that tick with its error; no later tick runs, so nothing is retried, and the
error propagates out of the loop. -/
theorem refresh_failure_terminates_loop (env : TickEnv) (rest : List TickEnv)
    (e : TickError) (h : (tick env).2 = .err e) :
    credLoop (env :: rest) = ((tick env).1, .err e) := by
  rcases hq : tick env with ⟨calls, r⟩
  rw [hq] at h
  simp only at h
  subst h
  simp [credLoop, hq]

/-- Witness for `refresh_failure_terminates_loop` at a concrete transient
network failure. -/
theorem refresh_failure_terminates_loop_witness :
    (tick ⟨45, .err "network failure" true, .ok⟩).2
        = .err (.refreshFailed "network failure" true)
    ∧ credLoop [⟨45, .err "network failure" true, .ok⟩, ⟨120, .ok, .ok⟩]
        = ((tick ⟨45, .err "network failure" true, .ok⟩).1,
            .err (.refreshFailed "network failure" true)) :=
  ⟨rfl, refresh_failure_terminates_loop _ _ _ rfl⟩

/-- Claim C5 counterexample: a tick whose refresh call fails makes no
validation call at all — `?` exits the iteration before `validate_token`. -/
theorem tick_no_validate_on_refresh_failure :
    (tick ⟨45, .err "network failure" true, .ok⟩).1.count .netValidate = 0 := rfl

/-- Claim C5, amended: every tick on which the refresh step does not fail
(either no refresh was needed, or the refresh succeeded) ends with exactly
one validation call; a tick whose refresh fails makes none. -/
theorem tick_validate_when_refresh_ok (env : TickEnv)
    (h : env.expiresIn < 60 → env.refreshResult = .ok) :
    (tick env).1.count .netValidate = 1 := by
  rcases env with ⟨exp, rr, vr⟩
  by_cases hx : exp < 60
  · have : rr = .ok := h hx
    subst this
    rcases vr with _ | e <;> simp [tick, hx, List.count_cons]
  · rcases vr with _ | e <;> simp [tick, hx, List.count_cons]

/-- Witness for `tick_validate_when_refresh_ok` at a 120s-lifetime tick. -/
theorem tick_validate_when_refresh_ok_witness :
    ((⟨120, .ok, .ok⟩ : TickEnv).expiresIn < 60 →
        (⟨120, .ok, .ok⟩ : TickEnv).refreshResult = .ok)
    ∧ (tick ⟨120, .ok, .ok⟩).1.count .netValidate = 1 :=
  ⟨by decide, tick_validate_when_refresh_ok ⟨120, .ok, .ok⟩ (by decide)⟩

/-- Payload of a `ChannelChatMessageV1` notification, with the fields
`handle_event`/`command` read: chatter name and id, the message text and the
message id. -/
structure ChatMessagePayload where
  chatter_user_name : String
  chatter_user_id : String
  text : String
  message_id : String
deriving DecidableEq, Repr

/-- The subscription condition fields used by `command`
(`subscription.condition.broadcaster_user_id` / `.user_id`). -/
structure Condition where
  broadcaster_user_id : String
  user_id : String
deriving DecidableEq, Repr

/-- The chatter of a `ChannelChatNotificationV1` payload: a named chatter or
any other variant (printed as `"anonymous"`, `src/main.rs:162`). -/
inductive Chatter where
  | chatter (chatter_user_name : String)
  | anonymous
deriving DecidableEq, Repr

/-- Payload of a `ChannelChatNotificationV1` notification. -/
structure ChatNotificationPayload where
  chatter : Chatter
  text : String
deriving DecidableEq, Repr

/-- The `Message` wrapper of an eventsub payload: `handle_event` only
matches `Message::Notification`; any other message variant falls through to
the catch-all arm. -/
inductive Msg (P : Type) where
  | notification (payload : P)
  | other
deriving DecidableEq

/-- The inbound `Event` as matched by `handle_event`: the two understood
categories, and `other` standing for every remaining event category. -/
inductive Event where
  | channelChatMessageV1 (message : Msg ChatMessagePayload) (subscription : Condition)
  | channelChatNotificationV1 (message : Msg ChatNotificationPayload)
  | other (category : String)
deriving DecidableEq

/-- Outcome of an outbound helix client call (`send_chat_message_reply`,
`ban_user`). -/
inductive CallResult where
  | ok
  | err (e : String)
deriving DecidableEq, Repr

/-- Result of `handle_event`/`command`: `Ok(())`, `Err(report)`, or a Rust
panic (an `unwrap` failure, which is not a `Result` at all). -/
inductive HRes where
  | ok
  | err (e : String)
  | panic
deriving DecidableEq, Repr

/-- Environment of one `handle_event` invocation: the roulette draw
`rand::rng().random_range(1..=6)` and the outcomes the platform would give
to the reply and ban calls. -/
structure HandlerEnv where
  num : Nat
  replyResult : CallResult
  banResult : CallResult
deriving DecidableEq, Repr

/-- The reply text of the losing roulette branch, `src/main.rs:193-198`. -/
def bangText (name : String) : String :=
  name ++ " took a chance with the revolver, and it went bang! Bye bye " ++ name

/-- The reply text of the surviving roulette branch, `src/main.rs:218`. -/
def sparedText (name : String) : String :=
  name ++ " took a chance with the revolver, it clicks, and " ++ name
    ++ " is spared to chat another day!"

/-- `Bot::command`, `src/main.rs:172-227`, with the random draw supplied by
the environment: logs the command; on `"roulette"` draws `num`; on a 6 sends
the bang reply then (if the reply succeeded) a 180-second ban; otherwise
sends the spared reply; any other command does nothing and returns `Ok`. -/
def command (env : HandlerEnv) (payload : ChatMessagePayload) (cond : Condition)
    (cmd : String) ( _rest : Option String) : List Action × HRes :=
  let log := Action.logInfo ("Command: " ++ cmd)
  if cmd = "roulette" then
    if env.num = 6 then
      let reply := Action.netReply cond.broadcaster_user_id cond.user_id
        payload.message_id (bangText payload.chatter_user_name)
      match env.replyResult with
      | .err e => ([log, reply], .err e)
      | .ok =>
        let ban := Action.netBan payload.chatter_user_id "Bro got shot!" (some 180)
          cond.broadcaster_user_id cond.user_id
        match env.banResult with
        | .err e => ([log, reply, ban], .err e)
        | .ok => ([log, reply, ban], .ok)
    else
      let reply := Action.netReply cond.broadcaster_user_id cond.user_id
        payload.message_id (sparedText payload.chatter_user_name)
      match env.replyResult with
      | .err e => ([log, reply], .err e)
      | .ok => ([log, reply], .ok)
  else ([log], .ok)

/-- Helper of `splitWhitespace`: walk the characters, accumulating the
current word (reversed) and emitting it at each whitespace run. -/
def splitWhitespaceAux : List Char → List Char → List String
  | [], [] => []
  | [], acc => [String.mk acc.reverse]
  | c :: cs, acc =>
    if c.isWhitespace then
      match acc with
      | [] => splitWhitespaceAux cs []
      | _ => String.mk acc.reverse :: splitWhitespaceAux cs []
    else splitWhitespaceAux cs (c :: acc)

/-- `str::split_whitespace`: the whitespace-separated words of `s`, empty
pieces discarded. -/
def splitWhitespace (s : String) : List String :=
  splitWhitespaceAux s.data []

/-- `text.strip_prefix("?!")`, `src/main.rs:141`. -/
def stripPrefixQM (s : String) : Option String :=
  match s.data with
  | '?' :: '!' :: rest => some (String.mk rest)
  | _ => none

/-- The `println!` line for a chat message, `src/main.rs:137-140`. -/
def printChatLine (ts : String) (p : ChatMessagePayload) : String :=
  "[" ++ ts ++ "] " ++ p.chatter_user_name ++ ": " ++ p.text

/-- The `println!` line for a chat notification, `src/main.rs:154-165`. -/
def printNotifLine (ts : String) (p : ChatNotificationPayload) : String :=
  "[" ++ ts ++ "] "
    ++ (match p.chatter with
        | .chatter n => n
        | .anonymous => "anonymous")
    ++ ": " ++ p.text

/-- `Bot::handle_event`, `src/main.rs:125-170`: takes the credential lock
first, then matches the event. A chat-message notification is printed; if
its text starts with `"?!"` the first whitespace-separated word after the
prefix is taken with `.unwrap()` — a panic when there is none — and passed
to `command` while still holding the lock. A chat-notification notification
is only printed. Everything else falls to the `_ => \x7b\x7d` arm. The lock
guard is dropped on every non-panicking exit path. -/
def handle_event (env : HandlerEnv) (event : Event) (timestamp : String) :
    List Action × HRes :=
  match event with
  | .channelChatMessageV1 (.notification payload) subscription =>
    let pre := [Action.lockAcquire, Action.printLine (printChatLine timestamp payload)]
    match stripPrefixQM payload.text with
    | some commandText =>
      match (splitWhitespace commandText).head? with
      | none => (pre, .panic)
      | some cmd =>
        let rest := (splitWhitespace commandText).tail.head?
        let p := command env payload subscription cmd rest
        (pre ++ p.1 ++ [Action.lockRelease], p.2)
    | none => (pre ++ [Action.lockRelease], .ok)
  | .channelChatNotificationV1 (.notification payload) =>
    ([Action.lockAcquire, Action.printLine (printNotifLine timestamp payload),
        Action.lockRelease], .ok)
  | _ => ([Action.lockAcquire, Action.lockRelease], .ok)

/-- Claim C4: an inbound event of any category other than the two understood
ones is silently ignored — `handle_event` performs nothing but the lock
round-trip and returns success. -/
theorem handle_event_unknown_ignored (env : HandlerEnv) (category timestamp : String) :
    handle_event env (.other category) timestamp
      = ([Action.lockAcquire, Action.lockRelease], .ok) := rfl

/-- Claim C8 (code bug): a chat message whose text is exactly `"?!"`, or
`"?!"` followed only by whitespace, makes `handle_event` panic at the
`split_whitespace.next().unwrap()` of `src/main.rs:143` instead of
returning a `Result`. -/
theorem handle_event_bare_command_panics :
    (handle_event ⟨1, .ok, .ok⟩
        (.channelChatMessageV1 (.notification ⟨"alice", "123", "?!", "m1"⟩)
          ⟨"B", "U"⟩) "ts").2 = .panic
    ∧ (handle_event ⟨1, .ok, .ok⟩
        (.channelChatMessageV1 (.notification ⟨"alice", "123", "?! ", "m1"⟩)
          ⟨"B", "U"⟩) "ts").2 = .panic := by
  constructor <;> rfl

/-- Claim C9: in the roulette command, for any drawn number in `1..=6` a ban
call — with a timeout of exactly 180 seconds — is issued iff the draw is 6;
on any other draw exactly one spared reply is sent and no ban call is made.
(The reply preceding the ban must succeed for the ban to be reached, since
`?` aborts on a failed reply.) -/
theorem command_roulette_ban_iff_six (env : HandlerEnv) (payload : ChatMessagePayload)
    (cond : Condition) (rest : Option String)
    (h1 : 1 ≤ env.num) (h6 : env.num ≤ 6) (hr : env.replyResult = .ok) :
    ((command env payload cond "roulette" rest).1.filter Action.isBan
      = if env.num = 6
        then [Action.netBan payload.chatter_user_id "Bro got shot!" (some 180)
                cond.broadcaster_user_id cond.user_id]
        else [])
    ∧ (env.num ≠ 6 →
        (command env payload cond "roulette" rest).1.count
          (Action.netReply cond.broadcaster_user_id cond.user_id payload.message_id
            (sparedText payload.chatter_user_name)) = 1) := by
  rcases env with ⟨num, rr, br⟩
  simp only at hr
  subst hr
  by_cases hn : num = 6
  · subst hn
    rcases br with _ | e <;>
      simp [command, Action.isBan, List.filter, List.count_cons]
  · simp [command, hn, Action.isBan, List.filter, List.count_cons]

/-- Witness for `command_roulette_ban_iff_six` at a drawn 6 with a
successful reply. -/
theorem command_roulette_ban_iff_six_witness :
    1 ≤ (⟨6, .ok, .ok⟩ : HandlerEnv).num
    ∧ (⟨6, .ok, .ok⟩ : HandlerEnv).num ≤ 6
    ∧ (⟨6, .ok, .ok⟩ : HandlerEnv).replyResult = .ok
    ∧ (((command ⟨6, .ok, .ok⟩ ⟨"bob", "7", "?!roulette", "m2"⟩ ⟨"B", "U"⟩
          "roulette" none).1.filter Action.isBan
        = if (⟨6, .ok, .ok⟩ : HandlerEnv).num = 6
          then [Action.netBan "7" "Bro got shot!" (some 180) "B" "U"]
          else [])
      ∧ ((⟨6, .ok, .ok⟩ : HandlerEnv).num ≠ 6 →
          (command ⟨6, .ok, .ok⟩ ⟨"bob", "7", "?!roulette", "m2"⟩ ⟨"B", "U"⟩
            "roulette" none).1.count
            (Action.netReply "B" "U" "m2" (sparedText "bob")) = 1)) :=
  ⟨by decide, by decide, by decide,
    command_roulette_ban_iff_six ⟨6, .ok, .ok⟩ ⟨"bob", "7", "?!roulette", "m2"⟩
      ⟨"B", "U"⟩ none (by decide) (by decide) (by decide)⟩

/-- Claim C10: any command other than `"roulette"` makes no outbound call
(no reply, no ban — the trace holds only the `tracing::info!` log) and
returns success; `command` touches no bot state at all. -/
theorem command_other_noop (env : HandlerEnv) (payload : ChatMessagePayload)
    (cond : Condition) (cmd : String) (rest : Option String)
    (h : cmd ≠ "roulette") :
    (command env payload cond cmd rest).1.filter Action.isNet = []
    ∧ (command env payload cond cmd rest).2 = .ok := by
  simp [command, h, Action.isNet, List.filter]

/-- Witness for `command_other_noop` at the command `"dice"`. -/
theorem command_other_noop_witness :
    ("dice" : String) ≠ "roulette"
    ∧ ((command ⟨3, .ok, .ok⟩ ⟨"bob", "7", "?!dice", "m2"⟩ ⟨"B", "U"⟩
          "dice" none).1.filter Action.isNet = []
      ∧ (command ⟨3, .ok, .ok⟩ ⟨"bob", "7", "?!dice", "m2"⟩ ⟨"B", "U"⟩
          "dice" none).2 = .ok) :=
  ⟨by decide,
    command_other_noop ⟨3, .ok, .ok⟩ ⟨"bob", "7", "?!dice", "m2"⟩ ⟨"B", "U"⟩
      "dice" none (by decide)⟩

/-- The trace of a roulette command always starts with the log line followed
by an outbound reply call (bang on a 6, spared otherwise). -/
theorem command_roulette_trace (env : HandlerEnv) (payload : ChatMessagePayload)
    (cond : Condition) (rest : Option String) :
    ∃ tail, (command env payload cond "roulette" rest).1
      = Action.logInfo "Command: roulette"
        :: Action.netReply cond.broadcaster_user_id cond.user_id payload.message_id
             (if env.num = 6 then bangText payload.chatter_user_name
               else sparedText payload.chatter_user_name)
        :: tail := by
  rcases env with ⟨num, rr, br⟩
  by_cases hn : num = 6
  · subst hn
    rcases rr with _ | e
    · rcases br with _ | e' <;>
        exact ⟨[Action.netBan payload.chatter_user_id "Bro got shot!" (some 180)
          cond.broadcaster_user_id cond.user_id], by simp [command]⟩
    · exact ⟨[], by simp [command]⟩
  · rcases rr with _ | e <;>
      exact ⟨[], by simp [command, hn]⟩

/-- Claim C3 counterexample: at a concrete tick (45s left, all calls
succeeding) the refresh loop holds the credential lock across outbound
network calls, and `handle_event` on a concrete `"?!roulette"` chat message
holds it across the reply call. -/
theorem lock_held_across_net_cex :
    netCallWhileLocked (tick ⟨45, .ok, .ok⟩).1 0 = true
    ∧ netCallWhileLocked (handle_event ⟨3, .ok, .ok⟩
        (.channelChatMessageV1 (.notification ⟨"bob", "7", "?!roulette", "m2"⟩)
          ⟨"B", "U"⟩) "ts").1 0 = true := by
  constructor <;> rfl

/-- Claim C3, amended: the credential lock IS held across outbound network
calls — every refresh-loop tick performs its refresh/validation call(s)
with the lock held, and `handle_event` acquires the lock on entry and keeps
it across the reply (and ban) calls a roulette command issues. -/
theorem lock_held_across_net (env : TickEnv) (henv : HandlerEnv)
    (payload : ChatMessagePayload) (cond : Condition) (ts : String)
    (htext : payload.text = "?!roulette") :
    netCallWhileLocked (tick env).1 0 = true
    ∧ netCallWhileLocked (handle_event henv
        (.channelChatMessageV1 (.notification payload) cond) ts).1 0 = true := by
  constructor
  · rcases env with ⟨exp, rr, vr⟩
    by_cases h : exp < 60
    · rcases rr with _ | ⟨e, tr⟩ <;> rcases vr with _ | e' <;>
        simp [tick, h, netCallWhileLocked, Action.isNet]
    · rcases vr with _ | e' <;>
        simp [tick, h, netCallWhileLocked, Action.isNet]
  · rcases payload with ⟨name, uid, text, mid⟩
    simp only at htext
    subst htext
    obtain ⟨tail, htr⟩ := command_roulette_trace henv ⟨name, uid, "?!roulette", mid⟩ cond none
    show netCallWhileLocked
      ([Action.lockAcquire,
          Action.printLine (printChatLine ts ⟨name, uid, "?!roulette", mid⟩)]
        ++ (command henv ⟨name, uid, "?!roulette", mid⟩ cond "roulette" none).1
        ++ [Action.lockRelease]) 0 = true
    rw [htr]
    simp [netCallWhileLocked, Action.isNet]

/-- Witness for `lock_held_across_net` at concrete tick and handler
inputs. -/
theorem lock_held_across_net_witness :
    (⟨"bob", "7", "?!roulette", "m2"⟩ : ChatMessagePayload).text = "?!roulette"
    ∧ (netCallWhileLocked (tick ⟨45, .err "network failure" true, .ok⟩).1 0 = true
      ∧ netCallWhileLocked (handle_event ⟨6, .ok, .ok⟩
          (.channelChatMessageV1 (.notification ⟨"bob", "7", "?!roulette", "m2"⟩)
            ⟨"B", "U"⟩) "ts").1 0 = true) :=
  ⟨by decide,
    lock_held_across_net ⟨45, .err "network failure" true, .ok⟩ ⟨6, .ok, .ok⟩
      ⟨"bob", "7", "?!roulette", "m2"⟩ ⟨"B", "U"⟩ "ts" (by decide)⟩

/-- Error out of `Bot::start`'s `try_join`: either the websocket run loop's
error or a credential-loop tick error. -/
inductive StartError where
  | wsError (e : String)
  | credError (e : TickError)
deriving DecidableEq, Repr

/-- One scheduling step of a long-running activity: it either makes progress
and keeps running, or terminates with an error. -/
inductive StepStatus where
  | cont
  | fail (e : StartError)
deriving DecidableEq, Repr

/-- `futures::future::try_join(ws, rt)` (`src/main.rs:121`), embedded as a
fuel-bounded round-robin execution from round `j`: each round polls the
websocket activity then the credential activity; the first error ends the
whole execution at that round. Returns the propagated error (if any) and
the number of rounds executed. -/
def tryJoinFrom (ws rt : Nat → StepStatus) : Nat → Nat → Option StartError × Nat
  | _, 0 => (none, 0)
  | j, fuel + 1 =>
    match ws j with
    | .fail e => (some e, 1)
    | .cont =>
      match rt j with
      | .fail e => (some e, 1)
      | .cont =>
        let p := tryJoinFrom ws rt (j + 1) fuel
        (p.1, p.2 + 1)

/-- The credential-refresh activity seen as a stepped process: round `i`
runs the tick with environment `schedule i` and fails with that tick's
error, wrapped as a `StartError`, if the tick fails. -/
def credActivity (schedule : Nat → TickEnv) (i : Nat) : StepStatus :=
  match (tick (schedule i)).2 with
  | .ok => .cont
  | .err e => .fail (.credError e)

/-- `Bot::start` (`src/main.rs:89-123`): the websocket run loop and the
credential-refresh loop joined with `try_join`; the fuel bounds how many
rounds we observe. -/
def start (ws : Nat → StepStatus) (schedule : Nat → TickEnv) (fuel : Nat) :
    Option StartError × Nat :=
  tryJoinFrom ws (credActivity schedule) 0 fuel

/-- Helper for claim C6, generalised over the starting round: if both
activities run for `k` rounds past `j` and the first failure occurs at round
`j + k` (websocket first — `try_join` polls it first — else credential),
the join returns exactly that error after exactly `k + 1` rounds. -/
theorem tryJoinFrom_first_fail (ws rt : Nat → StepStatus) :
    ∀ (k j fuel : Nat) (e : StartError),
      (∀ i, i < k → ws (j + i) = .cont ∧ rt (j + i) = .cont) →
      (ws (j + k) = .fail e ∨ (ws (j + k) = .cont ∧ rt (j + k) = .fail e)) →
      k < fuel →
      tryJoinFrom ws rt j fuel = (some e, k + 1) := by
  intro k
  induction k with
  | zero =>
    intro j fuel e _ hat hfuel
    rcases fuel with _ | f
    · omega
    · rcases hat with hws | ⟨hws, hrt⟩
      · simp only [Nat.add_zero] at hws
        simp [tryJoinFrom, hws]
      · simp only [Nat.add_zero] at hws hrt
        simp [tryJoinFrom, hws, hrt]
  | succ k ih =>
    intro j fuel e hbefore hat hfuel
    rcases fuel with _ | f
    · omega
    · obtain ⟨hws0, hrt0⟩ := hbefore 0 (Nat.succ_pos k)
      simp only [Nat.add_zero] at hws0 hrt0
      have hrec : tryJoinFrom ws rt (j + 1) f = (some e, k + 1) := by
        apply ih (j + 1) f e
        · intro i hi
          have := hbefore (i + 1) (by omega)
          constructor
          · have h1 : j + (i + 1) = j + 1 + i := by omega
            rw [h1] at this
            exact this.1
          · have h1 : j + (i + 1) = j + 1 + i := by omega
            rw [h1] at this
            exact this.2
        · have h1 : j + (k + 1) = j + 1 + k := by omega
          rw [h1] at hat
          exact hat
        · omega
      simp [tryJoinFrom, hws0, hrt0, hrec]

/-- Claim C6: `start` returns as soon as either joined activity fails — if
both the websocket loop and the credential loop run cleanly for the first
`k` rounds and the first error appears at round `k`, that error is the one
propagated out of `start` and the execution stops after exactly `k + 1`
rounds, so neither loop keeps running after the other has failed. -/
theorem start_first_error_wins (ws : Nat → StepStatus) (schedule : Nat → TickEnv)
    (k fuel : Nat) (e : StartError)
    (hbefore : ∀ i, i < k → ws i = .cont ∧ credActivity schedule i = .cont)
    (hat : ws k = .fail e ∨ (ws k = .cont ∧ credActivity schedule k = .fail e))
    (hfuel : k < fuel) :
    start ws schedule fuel = (some e, k + 1) := by
  apply tryJoinFrom_first_fail ws (credActivity schedule) k 0 fuel e
  · intro i hi
    simpa using hbefore i hi
  · simpa using hat
  · exact hfuel

/-- Witness for `start_first_error_wins`: the websocket loop fails at round
2 while the credential schedule stays healthy; `start` propagates the
websocket error after exactly 3 rounds. -/
theorem start_first_error_wins_witness :
    (∀ i, i < 2 →
        (fun n => if n = 2 then StepStatus.fail (.wsError "socket closed")
          else StepStatus.cont) i = StepStatus.cont
        ∧ credActivity (fun _ => ⟨120, .ok, .ok⟩) i = StepStatus.cont)
    ∧ ((fun n => if n = 2 then StepStatus.fail (.wsError "socket closed")
          else StepStatus.cont) 2 = StepStatus.fail (.wsError "socket closed")
        ∨ ((fun n => if n = 2 then StepStatus.fail (.wsError "socket closed")
          else StepStatus.cont) 2 = StepStatus.cont
          ∧ credActivity (fun _ => ⟨120, .ok, .ok⟩) 2
            = StepStatus.fail (.wsError "socket closed")))
    ∧ 2 < 10
    ∧ start (fun n => if n = 2 then StepStatus.fail (.wsError "socket closed")
        else StepStatus.cont) (fun _ => ⟨120, .ok, .ok⟩) 10
        = (some (.wsError "socket closed"), 3) :=
  ⟨by decide, by decide, by decide,
    start_first_error_wins
      (fun n => if n = 2 then StepStatus.fail (.wsError "socket closed")
        else StepStatus.cont)
      (fun _ => ⟨120, .ok, .ok⟩) 2 10 (.wsError "socket closed")
      (by decide) (by decide) (by decide)⟩

/-- A desired logical subscription: an event type together with its filter
condition (for this bot, one entry per chat event type for the configured
broadcaster, `src/main.rs:95`). -/
structure SubSpec where
  eventType : String
  condition : List (String × String)
deriving DecidableEq, Repr

/-- One subscription-registration call sent to the platform, referencing a
transport session id. -/
structure RegCall where
  eventType : String
  condition : List (String × String)
  sessionId : String
deriving DecidableEq, Repr

/-- Modelled from the spec: the repository's `websocket` module (declared
`mod websocket`, providing `ChatWebsocketClient`, `src/main.rs:1,16`) is not
among the sources; per the spec, once a welcome frame carrying a session id
is received, the session manager calls the subscription registrar once for
every desired logical subscription not yet registered for the current
session id, passing that session id. -/
def registerSubscriptions (config : List SubSpec) (sessionId : String) :
    List RegCall :=
  config.map fun s => ⟨s.eventType, s.condition, sessionId⟩

/-- Claim C7: after a welcome frame carrying session id `"S1"`, the manager
issues exactly one registration call per configured (eventType, condition)
pair, and every issued call references `"S1"`. -/
theorem welcome_then_subscribe (config : List SubSpec) (p : SubSpec)
    (hnodup : config.Nodup) (hmem : p ∈ config) :
    (registerSubscriptions config "S1").count ⟨p.eventType, p.condition, "S1"⟩ = 1
    ∧ ∀ c ∈ registerSubscriptions config "S1", c.sessionId = "S1" := by
  constructor
  · apply List.count_eq_one_of_mem
    · apply List.Nodup.map _ hnodup
      intro a b hab
      have h1 : a.eventType = b.eventType := congrArg RegCall.eventType hab
      have h2 : a.condition = b.condition := congrArg RegCall.condition hab
      cases a
      cases b
      simp_all
    · exact List.mem_map_of_mem _ hmem
  · intro c hc
    obtain ⟨s, _, hs⟩ := List.mem_map.mp hc
    rw [← hs]

/-- Witness for `welcome_then_subscribe` with the bot's two chat event
types configured for one broadcaster. -/
theorem welcome_then_subscribe_witness :
    ([⟨"channel.chat.message", [("broadcaster_user_id", "B"), ("user_id", "U")]⟩,
      ⟨"channel.chat.notification",
        [("broadcaster_user_id", "B"), ("user_id", "U")]⟩] : List SubSpec).Nodup
    ∧ (⟨"channel.chat.message", [("broadcaster_user_id", "B"), ("user_id", "U")]⟩
        : SubSpec) ∈
      ([⟨"channel.chat.message", [("broadcaster_user_id", "B"), ("user_id", "U")]⟩,
        ⟨"channel.chat.notification",
          [("broadcaster_user_id", "B"), ("user_id", "U")]⟩] : List SubSpec)
    ∧ ((registerSubscriptions
          [⟨"channel.chat.message", [("broadcaster_user_id", "B"), ("user_id", "U")]⟩,
            ⟨"channel.chat.notification",
              [("broadcaster_user_id", "B"), ("user_id", "U")]⟩] "S1").count
          ⟨"channel.chat.message", [("broadcaster_user_id", "B"), ("user_id", "U")],
            "S1"⟩ = 1
      ∧ ∀ c ∈ registerSubscriptions
          [⟨"channel.chat.message", [("broadcaster_user_id", "B"), ("user_id", "U")]⟩,
            ⟨"channel.chat.notification",
              [("broadcaster_user_id", "B"), ("user_id", "U")]⟩] "S1",
          c.sessionId = "S1") :=
  ⟨by decide, by decide,
    welcome_then_subscribe
      [⟨"channel.chat.message", [("broadcaster_user_id", "B"), ("user_id", "U")]⟩,
        ⟨"channel.chat.notification",
          [("broadcaster_user_id", "B"), ("user_id", "U")]⟩]
      ⟨"channel.chat.message", [("broadcaster_user_id", "B"), ("user_id", "U")]⟩
      (by decide) (by decide)⟩

end Roulette
